import Mathlib

/-!
# Verification of browserslist-mcp

A shallow embedding of the browserslist-mcp repository (TypeScript):
the Cloudflare-worker transport adapter (`WorkerServerResponse`,
`src/worker/index.ts`), the query facade (`src/utils/browserslist.ts`),
the MCP tool handlers, the worker router, and the Koa error boundary
(`src/server/koa.ts`).

The external browserslist library is modelled as an explicit functional
parameter (`BrowserslistLib`, `CoverageLib`): the repository only consumes
its contract.  JavaScript promises are modelled by an `Option`-valued
resolution slot whose first resolution wins (resolving an already
resolved promise is a no-op, per the ECMAScript promise semantics the
worker relies on).
-/

namespace BrowserslistMCP

/-! ## Bytes and chunks -/

/-- UTF-8 encoding of a Unicode code point, as a list of byte values. -/
def utf8EncodeCharNat (n : Nat) : List Nat :=
  if n < 0x80 then [n]
  else if n < 0x800 then
    [0xC0 ||| (n >>> 6), 0x80 ||| (n &&& 0x3F)]
  else if n < 0x10000 then
    [0xE0 ||| (n >>> 12), 0x80 ||| ((n >>> 6) &&& 0x3F), 0x80 ||| (n &&& 0x3F)]
  else
    [0xF0 ||| (n >>> 18), 0x80 ||| ((n >>> 12) &&& 0x3F),
     0x80 ||| ((n >>> 6) &&& 0x3F), 0x80 ||| (n &&& 0x3F)]

/-- UTF-8 bytes of a string, as the TextEncoder in
`WorkerServerResponse.write` produces them. -/
def utf8Bytes (s : String) : List Nat :=
  (s.data.map (fun c => utf8EncodeCharNat c.toNat)).flatten

/-- JS `toLowerCase()` on header names, modelled on basic-latin letters
(HTTP header names are ASCII). -/
def jsToLower (s : String) : String :=
  ⟨s.data.map Char.toLower⟩

/-- A chunk passed to `write`/`end`: a JS string or a `Uint8Array`. -/
inductive Chunk where
  | str (s : String)
  | bytes (b : List Nat)
deriving DecidableEq, Repr

/-- The byte content of a chunk; strings are UTF-8 encoded
(`new TextEncoder().encode(chunk)`). -/
def Chunk.encode : Chunk → List Nat
  | .str s => utf8Bytes s
  | .bytes b => b

/-- JS truthiness of the optional `chunk` argument of `end` (the source
guards with `if (chunk)`): `undefined` and the empty string are falsy,
every `Uint8Array` (even empty) is truthy. -/
def chunkTruthy : Option Chunk → Bool
  | none => false
  | some (.str s) => decide (s ≠ "")
  | some (.bytes _) => true

/-! ## Header maps

Headers are association lists in insertion order, as JS object keys and
Fetch `Headers` iterate them.  `setAssoc` overwrites in place on a repeat
key, appends otherwise. -/

def setAssoc (m : List (String × String)) (k v : String) : List (String × String) :=
  if m.any (fun p => p.1 == k) then
    m.map (fun p => if p.1 == k then (k, v) else p)
  else
    m ++ [(k, v)]

/-- Key present in the map. -/
def hasKey (m : List (String × String)) (k : String) : Bool :=
  m.any (fun p => p.1 == k)

/-- Case-insensitive header lookup, as Fetch `Headers.get` performs it. -/
def getHeaderCI (m : List (String × String)) (k : String) : Option String :=
  (m.find? (fun p => jsToLower p.1 == jsToLower k)).map (·.2)

/-! ## WorkerServerResponse (src/worker/index.ts lines 233-318)

The outbound proxy of the transport adapter: buffers chunks, holds a
status code and a header map, and resolves a completion promise exactly
once when `end` is called. -/

/-- The materialized response snapshot `{status, headers, body}` the
completion promise resolves with. -/
structure ResponseSnapshot where
  status : Nat
  headers : List (String × String)
  body : List Nat
deriving DecidableEq, Repr

structure WorkerServerResponse where
  statusCode : Nat := 200
  /-- `_headers`: keys lowercased by `setHeader`. -/
  headers : List (String × String) := []
  /-- `_chunks`: the append-only buffer of encoded chunks. -/
  chunks : List (List Nat) := []
  /-- The completion promise: `none` while pending; once `some`, further
  resolutions are no-ops (JS promise semantics). -/
  resolved : Option ResponseSnapshot := none
  headersSent : Bool := false
deriving DecidableEq, Repr

namespace WorkerServerResponse

/-- A freshly constructed response object. -/
def new : WorkerServerResponse := {}

/-- Resolve the completion promise; only the first resolution takes
effect. -/
def resolve (res : WorkerServerResponse) (r : ResponseSnapshot) : WorkerServerResponse :=
  match res.resolved with
  | none => { res with resolved := some r }
  | some _ => res

/-- `setHeader(name, value)`: stores under the lowercased name,
overwriting on repeat calls. -/
def setHeader (res : WorkerServerResponse) (name value : String) : WorkerServerResponse :=
  { res with headers := setAssoc res.headers (jsToLower name) value }

/-- `writeHead(statusCode, headers?)`: sets the status, applies each
header via `setHeader`, and marks headers as sent. -/
def writeHead (res : WorkerServerResponse) (statusCode : Nat)
    (hdrs : List (String × String)) : WorkerServerResponse :=
  let res := { res with statusCode := statusCode }
  let res := hdrs.foldl (fun r p => r.setHeader p.1 p.2) res
  { res with headersSent := true }

/-- `flushHeaders()`. -/
def flushHeaders (res : WorkerServerResponse) : WorkerServerResponse :=
  { res with headersSent := true }

/-- `write(chunk)`: appends the encoded chunk to the buffer.  The source
returns `true` unconditionally (no backpressure), so only the state is
modelled. -/
def write (res : WorkerServerResponse) (c : Chunk) : WorkerServerResponse :=
  { res with chunks := res.chunks ++ [c.encode] }

/-- `end(chunk?)`: optionally appends a final chunk (under JS
truthiness), concatenates the whole buffer into one byte sequence, and
resolves the completion promise with the materialized snapshot. -/
def «end» (res : WorkerServerResponse) (chunk : Option Chunk) : WorkerServerResponse :=
  let res' :=
    match chunk with
    | some c => if chunkTruthy (some c) then res.write c else res
    | none => res
  res'.resolve { status := res'.statusCode, headers := res'.headers, body := res'.chunks.flatten }

end WorkerServerResponse

/-! ## Handler scripts over the outbound proxy

A handler interacts with the proxy through a sequence of calls; `end` is
the final call, carrying an optional final chunk. -/

/-- One pre-finalize call a handler may issue on the outbound proxy. -/
inductive ROp where
  | setHeader (name value : String)
  | writeHead (status : Nat) (hdrs : List (String × String))
  | flushHeaders
  | write (c : Chunk)
deriving DecidableEq, Repr

def ROp.apply (res : WorkerServerResponse) : ROp → WorkerServerResponse
  | .setHeader n v => res.setHeader n v
  | .writeHead st hs => res.writeHead st hs
  | .flushHeaders => res.flushHeaders
  | .write c => res.write c

def runOps (res : WorkerServerResponse) (ops : List ROp) : WorkerServerResponse :=
  ops.foldl ROp.apply res

/-- The encoded chunks contributed by a call sequence, in issue order. -/
def opsChunks : List ROp → List (List Nat)
  | [] => []
  | .write c :: rest => c.encode :: opsChunks rest
  | .setHeader _ _ :: rest => opsChunks rest
  | .writeHead _ _ :: rest => opsChunks rest
  | .flushHeaders :: rest => opsChunks rest

/-! ## JSON values

Bodies produced by `jsonResponse` are modelled as structured JSON values;
the source serializes them with `JSON.stringify(data, null, 2)`, whose
rendering no claim inspects. -/

inductive Json where
  | null
  | bool (b : Bool)
  | num (q : Rat)
  | str (s : String)
  | arr (xs : List Json)
  | obj (fields : List (String × Json))
deriving Repr

/-! ## Query facade (src/utils/browserslist.ts)

The external browserslist library is a parameter: a function from
(query, env?, path?) to either the evaluated browser list or an error
message. -/

/-- The external `browserslist(query, {env, path})` call. -/
def BrowserslistLib : Type :=
  String → Option String → Option String → Except String (List String)

/-- The external `browserslist.coverage(browsers)` call.  The worker
route casts the parsed JSON array to `string[]` without validating the
elements, so the library input is modelled as raw JSON values (strings in
every intended call). -/
def CoverageLib : Type := List Json → Except String Rat

structure QueryOptions where
  env : Option String := none
  path : Option String := none
deriving DecidableEq, Repr

/-- `BrowserslistQueryInput` (src/types/index.ts): `query` required,
`options` optional with independently optional `env` and `path`. -/
structure BrowserslistQueryInput where
  query : String
  options : Option QueryOptions := none
deriving DecidableEq, Repr

/-- `BrowserslistResult` (src/types/index.ts). -/
structure BrowserslistResult where
  browsers : List String
  query : String
  count : Nat
deriving DecidableEq, Repr

/-- `executeBrowserslistQuery`: delegates to the library and formats the
result; on a library failure, rethrows with the prefixed message
`Failed to execute browserslist query: <message>`. -/
def executeBrowserslistQuery (lib : BrowserslistLib) (input : BrowserslistQueryInput) :
    Except String BrowserslistResult :=
  match lib input.query (input.options.bind (·.env)) (input.options.bind (·.path)) with
  | .ok browsers =>
      .ok { browsers := browsers, query := input.query, count := browsers.length }
  | .error e => .error ("Failed to execute browserslist query: " ++ e)

/-- `getBrowserslistDefaults`: joins the library's `defaults` list (a
parameter here) with `", "`.  Pure; never fails. -/
def getBrowserslistDefaults (defaults : List String) : String :=
  String.intercalate ", " defaults

structure CoverageResult where
  coverage : Rat
  countryCode : Option String := none
deriving DecidableEq, Repr

/-- `getBrowserslistCoverage`: delegates to the library's coverage
computation; on failure, rethrows with the prefixed message
`Failed to get coverage: <message>`. -/
def getBrowserslistCoverage (lib : CoverageLib) (browsers : List Json) :
    Except String CoverageResult :=
  match lib browsers with
  | .ok c => .ok { coverage := c }
  | .error e => .error ("Failed to get coverage: " ++ e)

/-! ## Protocol server tool handlers (src/worker/index.ts lines 25-205,
src/server/index.ts lines 10-190; the two registrations are identical)

Text content either renders a JSON value (`JSON.stringify(result, null,
2)` in the source, rendering not modelled) or is a literal string. -/

inductive ToolText where
  | jsonOf (j : Json)
  | plain (s : String)
deriving Repr

/-- A tool call result: text content blocks, an error tag, and optional
structured content.  Handlers are total functions into this type: every
facade failure is caught and returned as a value, never rethrown. -/
structure ToolResult where
  content : List ToolText
  isError : Bool := false
  structuredContent : Option Json := none
deriving Repr

def BrowserslistResult.toJson (r : BrowserslistResult) : Json :=
  .obj [("browsers", .arr (r.browsers.map .str)),
        ("query", .str r.query),
        ("count", .num r.count)]

def CoverageResult.toJson (c : CoverageResult) : Json :=
  .obj [("coverage", .num c.coverage)]

/-- The `query_browsers` tool handler. -/
def queryBrowsersTool (lib : BrowserslistLib) (input : BrowserslistQueryInput) : ToolResult :=
  match executeBrowserslistQuery lib input with
  | .ok result =>
      { content := [.jsonOf result.toJson],
        structuredContent := some result.toJson }
  | .error msg =>
      { content := [.plain ("Error: " ++ msg)], isError := true }

/-- The `get_defaults` tool handler.  `getBrowserslistDefaults` is pure,
so the catch branch of the source is unreachable. -/
def getDefaultsTool (defaults : List String) : ToolResult :=
  { content := [.plain ("Default browserslist query: " ++ getBrowserslistDefaults defaults)],
    structuredContent := some (.obj [("defaults", .str (getBrowserslistDefaults defaults))]) }

/-- The `get_coverage` tool handler; its input schema `z.array(z.string())`
guarantees string elements. -/
def getCoverageTool (lib : CoverageLib) (browsers : List String) : ToolResult :=
  match getBrowserslistCoverage lib (browsers.map .str) with
  | .ok coverage =>
      { content := [.jsonOf coverage.toJson],
        structuredContent := some coverage.toJson }
  | .error msg =>
      { content := [.plain ("Error: " ++ msg)], isError := true }

/-! ## Worker responses (src/worker/index.ts) -/

/-- A response body: a JSON value (serialized by `JSON.stringify(data,
null, 2)` in the source), raw text, materialized bytes, or `null`. -/
inductive BodyVal where
  | json (j : Json)
  | text (s : String)
  | bytes (b : List Nat)
  | empty
deriving Repr

structure WResponse where
  status : Nat
  headers : List (String × String)
  body : BodyVal
deriving Repr

/-- `corsHeaders` (lines 395-400). -/
def corsHeaders : List (String × String) :=
  [("Access-Control-Allow-Origin", "*"),
   ("Access-Control-Allow-Methods", "GET, POST, DELETE, OPTIONS"),
   ("Access-Control-Allow-Headers", "Content-Type, Authorization, Mcp-Session-Id"),
   ("Access-Control-Max-Age", "86400")]

/-- `jsonResponse(data, status = 200)`. -/
def jsonResponse (data : Json) (status : Nat := 200) : WResponse :=
  { status := status,
    headers := corsHeaders ++ [("Content-Type", "application/json")],
    body := .json data }

/-- `errorResponse(message, status = 400)`. -/
def errorResponse (message : String) (status : Nat := 400) : WResponse :=
  jsonResponse (.obj [("error", .str message)]) status

/-- `handleOptions()`. -/
def handleOptions : WResponse :=
  { status := 204, headers := corsHeaders, body := .empty }

/-! ## Request parsing -/

/-- The inbound request as the router consumes it: method, URL pathname,
and the result of `await request.json()` (a rejection message or the
parsed JSON value). -/
structure WRequest where
  method : String
  pathname : String
  jsonBody : Except String Json

/-- Property access `o.k` on a parsed JSON value: the field value, or
`undefined` (`none`) when absent or when the receiver is not an object. -/
def Json.getField : Json → String → Option Json
  | .obj fields, k => (fields.find? (fun p => p.1 == k)).map (·.2)
  | _, _ => none

/-- An optional string field of a zod object schema: absent is fine, a
non-string value fails.  Zod's exact failure message text is not
modelled; no claim inspects it. -/
def optStringField (o : Json) (k : String) : Except String (Option String) :=
  match o.getField k with
  | none => .ok none
  | some (.str s) => .ok (some s)
  | some _ => .error ("Expected string at " ++ k)

def parseQueryOptions (o : Json) : Except String QueryOptions := do
  let env ← optStringField o "env"
  let path ← optStringField o "path"
  .ok { env := env, path := path }

/-- `BrowserslistQuerySchema.parse` (src/types/index.ts lines 174-181):
an object with a required string `query` and an optional object
`options` holding optional string fields `env` and `path`. -/
def parseBrowserslistQuerySchema (j : Json) : Except String BrowserslistQueryInput :=
  match j with
  | .obj _ =>
    (match j.getField "query" with
     | some (.str q) =>
       (match j.getField "options" with
        | none => .ok { query := q }
        | some (.obj fields) =>
          (parseQueryOptions (.obj fields)).map
            (fun opts => { query := q, options := some opts })
        | some _ => .error "Expected object at options")
     | some _ => .error "Expected string at query"
     | none => .error "Required at query")
  | _ => .error "Expected object"

/-! ## Worker route handlers (src/worker/index.ts lines 435-534) -/

/-- `handleHealth()`; `new Date().toISOString()` is the impure input
`now`. -/
def handleHealth (now : String) : WResponse :=
  jsonResponse (.obj
    [("status", .str "ok"),
     ("service", .str "browserslist-mcp"),
     ("version", .str "1.0.0"),
     ("timestamp", .str now)])

/-- `handleQueryBrowsers(request)`: body parse, schema validation and
query evaluation run under one catch that surfaces any failure message
with the default status 400. -/
def handleQueryBrowsers (lib : BrowserslistLib) (req : WRequest) : WResponse :=
  match (do
    let body ← req.jsonBody
    let input ← parseBrowserslistQuerySchema body
    executeBrowserslistQuery lib input : Except String BrowserslistResult) with
  | .ok result => jsonResponse result.toJson
  | .error m => errorResponse m

/-- `handleGetDefaults()`: `getBrowserslistDefaults` is pure, so the
catch branch of the source (status 500, lines 469-472) is unreachable. -/
def handleGetDefaults (defaults : List String) : WResponse :=
  jsonResponse (.obj
    [("defaults", .str (getBrowserslistDefaults defaults)),
     ("description", .str "Default browserslist configuration")])

/-- `handleGetCoverage(request)`: requires a `browsers` field holding an
array (`!body.browsers || !Array.isArray(body.browsers)`), then passes
the raw elements to the coverage facade under the same 400 catch. -/
def handleGetCoverage (covLib : CoverageLib) (req : WRequest) : WResponse :=
  match req.jsonBody with
  | .error m => errorResponse m
  | .ok body =>
    match body.getField "browsers" with
    | some (.arr elems) =>
      (match getBrowserslistCoverage covLib elems with
       | .ok coverage => jsonResponse coverage.toJson
       | .error m => errorResponse m)
    | _ => errorResponse "browsers must be an array of browser strings"

/-- `handleDocumentation()`; the markdown content is a parameter. -/
def handleDocumentation (doc : String) : WResponse :=
  { status := 200,
    headers := corsHeaders ++ [("Content-Type", "text/markdown; charset=utf-8")],
    body := .text doc }

/-- `handleExamples()`; the examples array is a parameter. -/
def handleExamples (examples : Json) : WResponse :=
  jsonResponse examples

/-- `handleRoot()`. -/
def handleRoot : WResponse :=
  jsonResponse (.obj
    [("name", .str "browserslist-mcp"),
     ("version", .str "1.0.0"),
     ("description", .str "Browserslist query API for Cloudflare Workers"),
     ("endpoints", .obj
       [("GET /", .str "API information"),
        ("GET /health", .str "Health check"),
        ("GET|POST|DELETE /mcp", .str "MCP protocol endpoint (Model Context Protocol)"),
        ("POST /api/query", .str "Execute browserslist query (REST API)"),
        ("GET /api/defaults", .str "Get default browserslist configuration (REST API)"),
        ("POST /api/coverage", .str "Calculate browser coverage (REST API)"),
        ("GET /api/documentation", .str "Get browserslist query documentation (REST API)"),
        ("GET /api/examples", .str "Get query examples (REST API)")]),
     ("documentation", .str "https://github.com/browserslist/browserslist"),
     ("mcp", .str "https://modelcontextprotocol.io")])

/-! ## MCP-over-HTTP (src/worker/index.ts lines 323-390)

`transport.handleRequest` is external SDK code; its observable behavior
on the outbound proxy is a parameter: either it drives the proxy with
some calls and finalizes, or it throws and the catch produces a 500.  (A
handler that returns without finalizing leaves the completion promise
pending — the documented hang, which produces no response at all.) -/

inductive MCPOutcome where
  | completes (ops : List ROp) (fin : Option Chunk)
  | throws (msg : String)

/-- The CORS preflight headers of the OPTIONS branch inside
`handleMCPRequest` (lines 330-337). -/
def mcpPreflightHeaders : List (String × String) :=
  [("Access-Control-Allow-Origin", "*"),
   ("Access-Control-Allow-Methods", "GET, POST, DELETE, OPTIONS"),
   ("Access-Control-Allow-Headers",
    "Content-Type, Authorization, Mcp-Session-Id, Accept, Mcp-Protocol-Version"),
   ("Access-Control-Max-Age", "86400")]

/-- `handleMCPRequest(request)`: awaits the adapter's completion promise
and re-wraps the snapshot with `Access-Control-Allow-Origin: *` set on a
`Headers` copy (`Headers` stores names lowercased).  The `getD` default
is never read: `end` always resolves the fresh proxy's pending promise. -/
def handleMCPRequest (mcp : MCPOutcome) (req : WRequest) : WResponse :=
  if req.method = "OPTIONS" then
    { status := 204, headers := mcpPreflightHeaders, body := .empty }
  else
    match mcp with
    | .completes ops fin =>
      let snap := (((runOps .new ops).end fin).resolved).getD { status := 200, headers := [], body := [] }
      { status := snap.status,
        headers := setAssoc snap.headers (jsToLower "Access-Control-Allow-Origin") "*",
        body := .bytes snap.body }
    | .throws msg =>
      { status := 500,
        headers := [("Content-Type", "application/json"),
                    ("Access-Control-Allow-Origin", "*")],
        body := .json (.obj [("error", .str msg)]) }

/-! ## Worker router and fetch entry point (lines 539-601) -/

/-- Everything the worker closes over: the library calls, the static
resources, the clock, and the observable MCP transport behavior for the
current request. -/
structure WorkerCtx where
  lib : BrowserslistLib
  covLib : CoverageLib
  defaults : List String
  documentation : String
  examples : Json
  now : String
  mcp : MCPOutcome

/-- `handleRequest(request)`: the if-chain router. -/
def handleRequest (ctx : WorkerCtx) (req : WRequest) : WResponse :=
  if req.method = "OPTIONS" then handleOptions
  else if req.pathname = "/mcp" then handleMCPRequest ctx.mcp req
  else if req.pathname = "/" ∨ req.pathname = "" then handleRoot
  else if req.pathname = "/health" then handleHealth ctx.now
  else if req.pathname = "/api/query" ∧ req.method = "POST" then
    handleQueryBrowsers ctx.lib req
  else if req.pathname = "/api/defaults" ∧ req.method = "GET" then
    handleGetDefaults ctx.defaults
  else if req.pathname = "/api/coverage" ∧ req.method = "POST" then
    handleGetCoverage ctx.covLib req
  else if req.pathname = "/api/documentation" ∧ req.method = "GET" then
    handleDocumentation ctx.documentation
  else if req.pathname = "/api/examples" ∧ req.method = "GET" then
    handleExamples ctx.examples
  else errorResponse ("Endpoint not found: " ++ req.method ++ " " ++ req.pathname) 404

/-- The default `fetch` export (lines 590-601): `crash` carries the
message of an exception escaping `handleRequest` (the embedded router is
total; in the source, platform calls such as `new URL` can throw). -/
def workerFetch (ctx : WorkerCtx) (req : WRequest) (crash : Option String) : WResponse :=
  match crash with
  | some m => errorResponse m 500
  | none => handleRequest ctx req

/-! ## Koa front end (src/server/koa.ts) -/

structure KoaResponse where
  status : Nat
  body : BodyVal
deriving Repr

/-- The Koa error-handling middleware (koa.ts lines 19-29): whatever a
downstream route throws — validation failure, query-evaluation failure,
or an unexpected internal failure alike — is caught and surfaced as
status 400 with body `{error: message}` (empty message falls back to
`Internal server error`). -/
def koaErrorBoundary (downstream : Except String BodyVal) : KoaResponse :=
  match downstream with
  | .ok b => { status := 200, body := b }
  | .error m =>
    { status := 400,
      body := .json (.obj
        [("error", .str (if m = "" then "Internal server error" else m))]) }

/-- The Koa route table (koa.ts lines 32-68) run under the error
middleware; a thrown error propagates as `.error`.  `none` means no
route matched (Koa then answers with its plain-text 404/405 default,
which carries no JSON body). -/
def koaRoutes (lib : BrowserslistLib) (covLib : CoverageLib) (defaults : List String)
    (doc : String) (examples : Json) (method path : String) (body : Json) :
    Option (Except String BodyVal) :=
  if method = "GET" ∧ path = "/health" then
    some (.ok (.json (.obj [("status", .str "ok"), ("service", .str "browserslist-mcp")])))
  else if method = "POST" ∧ path = "/api/query" then
    some (do
      let input ← parseBrowserslistQuerySchema body
      let result ← executeBrowserslistQuery lib input
      .ok (.json result.toJson))
  else if method = "GET" ∧ path = "/api/defaults" then
    some (.ok (.json (.obj [("defaults", .str (getBrowserslistDefaults defaults))])))
  else if method = "POST" ∧ path = "/api/coverage" then
    some (match body.getField "browsers" with
      | some (.arr elems) => do
          let coverage ← getBrowserslistCoverage covLib elems
          .ok (.json coverage.toJson)
      | _ => .error "browsers must be an array")
  else if method = "GET" ∧ path = "/api/documentation" then
    some (.ok (.text doc))
  else if method = "GET" ∧ path = "/api/examples" then
    some (.ok (.json examples))
  else none

/-- One request through the Koa app. -/
def koaApp (lib : BrowserslistLib) (covLib : CoverageLib) (defaults : List String)
    (doc : String) (examples : Json) (method path : String) (body : Json) : KoaResponse :=
  match koaRoutes lib covLib defaults doc examples method path body with
  | some outcome => koaErrorBoundary outcome
  | none => { status := 404, body := .text "Not Found" }

/-! ## Auxiliary definitions for the verification -/

/-- Keys of a header map are already lowercased. -/
def LowerKeys (m : List (String × String)) : Prop :=
  ∀ p ∈ m, jsToLower p.1 = p.1

/-- The encoded chunks an operation appends to the buffer. -/
def ROp.chunkContrib : ROp → List (List Nat)
  | .write c => [c.encode]
  | _ => []

/-- The final chunk `end` appends, under JS truthiness. -/
def finChunk : Option Chunk → List (List Nat)
  | some ch => if chunkTruthy (some ch) then [ch.encode] else []
  | none => []

/-- The (method, pathname) combinations some branch of `handleRequest`
matches before the 404 fallthrough. -/
def workerRouteMatched (method pathname : String) : Prop :=
  method = "OPTIONS" ∨ pathname = "/mcp" ∨ pathname = "/" ∨ pathname = "" ∨
  pathname = "/health" ∨
  (pathname = "/api/query" ∧ method = "POST") ∨
  (pathname = "/api/defaults" ∧ method = "GET") ∨
  (pathname = "/api/coverage" ∧ method = "POST") ∨
  (pathname = "/api/documentation" ∧ method = "GET") ∨
  (pathname = "/api/examples" ∧ method = "GET")

/-- A concrete library that accepts every query with a fixed list. -/
def okLib : BrowserslistLib := fun _ _ _ => .ok ["chrome 120", "firefox 121"]

/-- A concrete library that rejects every query. -/
def constErrorLib : BrowserslistLib := fun _ _ _ => .error "Unknown browser query"

/-- A concrete coverage library: 0 on the empty list, failure otherwise. -/
def sampleCovLib : CoverageLib := fun bs => if bs.isEmpty then .ok 0 else .error "Unknown browser"

/-- A concrete coverage library that rejects every list. -/
def constErrorCovLib : CoverageLib := fun _ => .error "Unknown version in browsers"

/-- A library whose failure message is an unexpected internal fault, not
a query-syntax diagnosis. -/
def internalFailLib : BrowserslistLib := fun _ _ _ => .error "Cannot read properties of undefined"

/-- A concrete worker context for closed instances. -/
def sampleCtx : WorkerCtx :=
  { lib := okLib,
    covLib := sampleCovLib,
    defaults := ["> 0.5%", "last 2 versions", "Firefox ESR", "not dead"],
    documentation := "# Browserslist Query Syntax",
    examples := .arr [.obj [("query", .str "defaults"), ("description", .str "Default set")]],
    now := "2025-01-01T00:00:00.000Z",
    mcp := .throws "MCP transport failure" }

/-! ## Helper lemmas -/

theorem charToNat_ofNat_valid (n : Nat) (h : n.isValidChar) : (Char.ofNat n).toNat = n := by
  simp [Char.ofNat, dif_pos h, Char.ofNatAux, Char.toNat, UInt32.toNat]

theorem charToLower_idem (c : Char) : c.toLower.toLower = c.toLower := by
  unfold Char.toLower
  by_cases h : c.toNat ≥ 65 ∧ c.toNat ≤ 90
  · rw [if_pos h]
    have hv : (c.toNat + 32).isValidChar := Or.inl (by omega)
    rw [if_neg]
    rw [charToNat_ofNat_valid _ hv]
    omega
  · rw [if_neg h]
    show (if c.toNat ≥ 65 ∧ c.toNat ≤ 90 then Char.ofNat (c.toNat + 32) else c) = c
    exact if_neg h

theorem jsToLower_idem (s : String) : jsToLower (jsToLower s) = jsToLower s := by
  simp [jsToLower, List.map_map, Function.comp_def, charToLower_idem]

theorem lowerKeys_nil : LowerKeys [] := by
  intro p hp; cases hp

theorem lowerKeys_setAssoc {m : List (String × String)} (hm : LowerKeys m)
    {k : String} (hk : jsToLower k = k) (v : String) : LowerKeys (setAssoc m k v) := by
  intro p hp
  unfold setAssoc at hp
  split at hp
  · obtain ⟨q, hq, hpq⟩ := List.mem_map.mp hp
    by_cases hqk : q.1 = k
    · simp only [hqk, beq_self_eq_true, if_pos] at hpq
      subst hpq; exact hk
    · simp only [beq_eq_false_iff_ne.mpr hqk, if_neg, Bool.false_eq_true,
        not_false_eq_true, if_neg] at hpq
      subst hpq; exact hm q hq
  · rcases List.mem_append.mp hp with h | h
    · exact hm p h
    · simp only [List.mem_singleton] at h; subst h; exact hk

theorem find?_setAssoc_lower {m : List (String × String)} (hm : LowerKeys m)
    {k : String} (hk : jsToLower k = k) (v : String) :
    (setAssoc m k v).find? (fun p => jsToLower p.1 == jsToLower k) = some (k, v) := by
  unfold setAssoc
  split
  case isTrue hany =>
    induction m with
    | nil => simp at hany
    | cons q rest ih =>
      by_cases hqk : q.1 = k
      · simp [List.find?, hqk, hk, jsToLower_idem]
      · have hq : jsToLower q.1 = q.1 := hm q (by simp)
        have hne : (jsToLower q.1 == jsToLower k) = false := by
          rw [hq, hk]; exact beq_eq_false_iff_ne.mpr hqk
        have hrest : rest.any (fun p => p.1 == k) = true := by
          simp only [List.any_cons, beq_eq_false_iff_ne.mpr hqk, Bool.false_or] at hany
          exact hany
        have hmrest : LowerKeys rest := fun p hp => hm p (by simp [hp])
        simpa [List.find?, beq_eq_false_iff_ne.mpr hqk, hne] using ih hmrest hrest
  case isFalse hany =>
    induction m with
    | nil => simp [List.find?, hk, jsToLower_idem]
    | cons q rest ih =>
      have hqk : q.1 ≠ k := by
        intro hcontra
        exact hany (by simp [List.any_cons, hcontra])
      have hq : jsToLower q.1 = q.1 := hm q (by simp)
      have hne : (jsToLower q.1 == jsToLower k) = false := by
        rw [hq, hk]; exact beq_eq_false_iff_ne.mpr hqk
      have hmrest : LowerKeys rest := fun p hp => hm p (by simp [hp])
      have hanyrest : ¬ rest.any (fun p => p.1 == k) = true := by
        intro hcontra
        exact hany (by simp [List.any_cons, hcontra])
      simpa [List.find?, hne] using ih hmrest hanyrest

theorem getHeaderCI_setAssoc_lower {m : List (String × String)} (hm : LowerKeys m)
    {k : String} (hk : jsToLower k = k) (v : String) :
    getHeaderCI (setAssoc m k v) k = some v := by
  unfold getHeaderCI
  rw [find?_setAssoc_lower hm hk v]
  rfl

theorem foldlSetHeader_chunks (hdrs : List (String × String)) (s : WorkerServerResponse) :
    (hdrs.foldl (fun r p => r.setHeader p.1 p.2) s).chunks = s.chunks := by
  induction hdrs generalizing s with
  | nil => rfl
  | cons p rest ih => exact ih _

theorem foldlSetHeader_resolved (hdrs : List (String × String)) (s : WorkerServerResponse) :
    (hdrs.foldl (fun r p => r.setHeader p.1 p.2) s).resolved = s.resolved := by
  induction hdrs generalizing s with
  | nil => rfl
  | cons p rest ih => exact ih _

theorem apply_chunks (op : ROp) (s : WorkerServerResponse) :
    (op.apply s).chunks = s.chunks ++ op.chunkContrib := by
  cases op with
  | setHeader n v => simp [ROp.apply, ROp.chunkContrib, WorkerServerResponse.setHeader]
  | writeHead st hs =>
    simp [ROp.apply, ROp.chunkContrib, WorkerServerResponse.writeHead, foldlSetHeader_chunks]
  | flushHeaders => simp [ROp.apply, ROp.chunkContrib, WorkerServerResponse.flushHeaders]
  | write c => simp [ROp.apply, ROp.chunkContrib, WorkerServerResponse.write]

theorem apply_resolved (op : ROp) (s : WorkerServerResponse) :
    (op.apply s).resolved = s.resolved := by
  cases op with
  | setHeader n v => rfl
  | writeHead st hs =>
    simp [ROp.apply, WorkerServerResponse.writeHead, foldlSetHeader_resolved]
  | flushHeaders => rfl
  | write c => rfl

theorem opsChunks_eq (ops : List ROp) :
    opsChunks ops = ops.foldr (fun op acc => op.chunkContrib ++ acc) [] := by
  induction ops with
  | nil => rfl
  | cons op rest ih => cases op <;> simp [opsChunks, ROp.chunkContrib, ih]

theorem runOps_chunks (ops : List ROp) (s : WorkerServerResponse) :
    (runOps s ops).chunks = s.chunks ++ opsChunks ops := by
  induction ops generalizing s with
  | nil => simp [runOps, opsChunks]
  | cons op rest ih =>
    have : runOps s (op :: rest) = runOps (op.apply s) rest := rfl
    rw [this, ih, apply_chunks, List.append_assoc]
    congr 1
    cases op <;> simp [opsChunks, ROp.chunkContrib]

theorem runOps_resolved (ops : List ROp) (s : WorkerServerResponse) :
    (runOps s ops).resolved = s.resolved := by
  induction ops generalizing s with
  | nil => rfl
  | cons op rest ih =>
    have : runOps s (op :: rest) = runOps (op.apply s) rest := rfl
    rw [this, ih, apply_resolved]

theorem hasKey_setAssoc_self (m : List (String × String)) (k v : String) :
    hasKey (setAssoc m k v) k = true := by
  unfold hasKey setAssoc
  split
  case isTrue hany =>
    rw [List.any_eq_true] at hany ⊢
    obtain ⟨q, hq, hqk⟩ := hany
    exact ⟨(k, v), List.mem_map.mpr ⟨q, hq, by simp [hqk]⟩, by simp⟩
  case isFalse _ =>
    rw [List.any_eq_true]
    exact ⟨(k, v), List.mem_append.mpr (Or.inr (by simp)), by simp⟩

theorem hasKey_setAssoc_mono {m : List (String × String)} {k' : String}
    (h : hasKey m k' = true) (k v : String) : hasKey (setAssoc m k v) k' = true := by
  unfold hasKey setAssoc at *
  split
  case isTrue hany =>
    rw [List.any_eq_true] at h ⊢
    obtain ⟨q, hq, hqk⟩ := h
    simp only [beq_iff_eq] at hqk
    by_cases hqeq : q.1 = k
    · exact ⟨(k, v), List.mem_map.mpr ⟨q, hq, by simp [hqeq]⟩, by simp [← hqeq, hqk]⟩
    · exact ⟨q, List.mem_map.mpr ⟨q, hq, by simp [hqeq]⟩, by simp [hqk]⟩
  case isFalse _ =>
    rw [List.any_eq_true] at h ⊢
    obtain ⟨q, hq, hqk⟩ := h
    exact ⟨q, List.mem_append.mpr (Or.inl hq), hqk⟩

theorem foldlSetHeader_hasKey {s : WorkerServerResponse} {k : String}
    (h : hasKey s.headers k = true) (hdrs : List (String × String)) :
    hasKey ((hdrs.foldl (fun r p => r.setHeader p.1 p.2) s)).headers k = true := by
  induction hdrs generalizing s with
  | nil => exact h
  | cons p rest ih =>
    exact ih (hasKey_setAssoc_mono h (jsToLower p.1) p.2)

theorem apply_hasKey {s : WorkerServerResponse} {k : String}
    (h : hasKey s.headers k = true) (op : ROp) : hasKey (op.apply s).headers k = true := by
  cases op with
  | setHeader n v => exact hasKey_setAssoc_mono h (jsToLower n) v
  | writeHead st hs =>
    simp only [ROp.apply, WorkerServerResponse.writeHead]
    exact foldlSetHeader_hasKey (s := { s with statusCode := st }) h hs
  | flushHeaders => exact h
  | write c => exact h

theorem runOps_hasKey_mono {s : WorkerServerResponse} {k : String}
    (h : hasKey s.headers k = true) (ops : List ROp) :
    hasKey (runOps s ops).headers k = true := by
  induction ops generalizing s with
  | nil => exact h
  | cons op rest ih => exact ih (apply_hasKey h op)

theorem runOps_hasKey_of_mem {ops : List ROp} {n v : String}
    (h : ROp.setHeader n v ∈ ops) (s : WorkerServerResponse) :
    hasKey (runOps s ops).headers (jsToLower n) = true := by
  induction ops generalizing s with
  | nil => cases h
  | cons op rest ih =>
    rcases List.mem_cons.mp h with heq | hmem
    · subst heq
      exact runOps_hasKey_mono (hasKey_setAssoc_self s.headers (jsToLower n) v) rest
    · exact ih hmem _

theorem foldlSetHeader_lowerKeys {s : WorkerServerResponse}
    (h : LowerKeys s.headers) (hdrs : List (String × String)) :
    LowerKeys ((hdrs.foldl (fun r p => r.setHeader p.1 p.2) s)).headers := by
  induction hdrs generalizing s with
  | nil => exact h
  | cons p rest ih =>
    exact ih (lowerKeys_setAssoc h (jsToLower_idem p.1) p.2)

theorem apply_lowerKeys {s : WorkerServerResponse}
    (h : LowerKeys s.headers) (op : ROp) : LowerKeys (op.apply s).headers := by
  cases op with
  | setHeader n v => exact lowerKeys_setAssoc h (jsToLower_idem n) v
  | writeHead st hs =>
    simp only [ROp.apply, WorkerServerResponse.writeHead]
    exact foldlSetHeader_lowerKeys (s := { s with statusCode := st }) h hs
  | flushHeaders => exact h
  | write c => exact h

theorem runOps_lowerKeys {s : WorkerServerResponse}
    (h : LowerKeys s.headers) (ops : List ROp) : LowerKeys (runOps s ops).headers := by
  induction ops generalizing s with
  | nil => exact h
  | cons op rest ih => exact ih (apply_lowerKeys h op)

theorem end_of_pending {s : WorkerServerResponse} (h : s.resolved = none) (c : Option Chunk) :
    (s.end c).resolved =
      some { status := s.statusCode, headers := s.headers,
             body := (s.chunks ++ finChunk c).flatten } := by
  unfold WorkerServerResponse.end WorkerServerResponse.resolve
  cases c with
  | none => simp [h, finChunk]
  | some ch =>
    by_cases ht : chunkTruthy (some ch) <;>
      simp [ht, h, finChunk, WorkerServerResponse.write]

theorem end_of_resolved {s : WorkerServerResponse} {r : ResponseSnapshot}
    (h : s.resolved = some r) (c : Option Chunk) : (s.end c).resolved = some r := by
  unfold WorkerServerResponse.end WorkerServerResponse.resolve
  cases c with
  | none => simp [h]
  | some ch =>
    by_cases ht : chunkTruthy (some ch) <;>
      simp [ht, h, WorkerServerResponse.write]

theorem execute_ok {lib : BrowserslistLib} {input : BrowserslistQueryInput} {bs : List String}
    (h : lib input.query (input.options.bind (·.env)) (input.options.bind (·.path)) = .ok bs) :
    executeBrowserslistQuery lib input =
      .ok { browsers := bs, query := input.query, count := bs.length } := by
  unfold executeBrowserslistQuery
  rw [h]

theorem execute_error {lib : BrowserslistLib} {input : BrowserslistQueryInput} {m : String}
    (h : lib input.query (input.options.bind (·.env)) (input.options.bind (·.path)) = .error m) :
    executeBrowserslistQuery lib input =
      .error ("Failed to execute browserslist query: " ++ m) := by
  unfold executeBrowserslistQuery
  rw [h]

theorem coverage_ok {lib : CoverageLib} {bs : List Json} {c : Rat} (h : lib bs = .ok c) :
    getBrowserslistCoverage lib bs = .ok { coverage := c } := by
  unfold getBrowserslistCoverage
  rw [h]

theorem coverage_error {lib : CoverageLib} {bs : List Json} {m : String}
    (h : lib bs = .error m) :
    getBrowserslistCoverage lib bs = .error ("Failed to get coverage: " ++ m) := by
  unfold getBrowserslistCoverage
  rw [h]

theorem getHeaderCI_jsonResponse (d : Json) (s : Nat) :
    getHeaderCI (jsonResponse d s).headers "Access-Control-Allow-Origin" = some "*" := rfl

theorem handleQueryBrowsers_cors (lib : BrowserslistLib) (req : WRequest) :
    getHeaderCI (handleQueryBrowsers lib req).headers "Access-Control-Allow-Origin" = some "*" := by
  unfold handleQueryBrowsers
  split <;> rfl

theorem handleGetCoverage_cors (covLib : CoverageLib) (req : WRequest) :
    getHeaderCI (handleGetCoverage covLib req).headers "Access-Control-Allow-Origin" = some "*" := by
  unfold handleGetCoverage
  split
  · rfl
  · split
    · split <;> rfl
    · rfl

theorem handleMCPRequest_cors (mcp : MCPOutcome) (req : WRequest) :
    getHeaderCI (handleMCPRequest mcp req).headers "Access-Control-Allow-Origin" = some "*" := by
  unfold handleMCPRequest
  split
  · rfl
  · cases mcp with
    | throws m => rfl
    | completes ops fin =>
      have hres : ((runOps WorkerServerResponse.new ops).end fin).resolved =
          some { status := (runOps WorkerServerResponse.new ops).statusCode,
                 headers := (runOps WorkerServerResponse.new ops).headers,
                 body := ((runOps WorkerServerResponse.new ops).chunks ++ finChunk fin).flatten } :=
        end_of_pending (runOps_resolved ops _) fin
      simp only [hres, Option.getD_some]
      exact getHeaderCI_setAssoc_lower (runOps_lowerKeys lowerKeys_nil ops)
        (jsToLower_idem "Access-Control-Allow-Origin") "*"

/-! ## Claim theorems -/

/-- C1: for every sequence of calls on the outbound proxy followed by a
finalize carrying a (truthy) final chunk, the materialized body is the
concatenation of all written chunks in issue order with the final chunk
last, and every header set before finalize is present in the final
snapshot, whatever the order of the header-setting calls. -/
theorem transport_write_order_headers_present (ops : List ROp) (c : Option Chunk) :
    ((runOps WorkerServerResponse.new ops).end c).resolved =
      some { status := (runOps WorkerServerResponse.new ops).statusCode,
             headers := (runOps WorkerServerResponse.new ops).headers,
             body := (opsChunks ops ++ finChunk c).flatten } ∧
    ∀ n v, ROp.setHeader n v ∈ ops →
      hasKey (runOps WorkerServerResponse.new ops).headers (jsToLower n) = true := by
  constructor
  · have hb : WorkerServerResponse.new.chunks ++ opsChunks ops ++ finChunk c =
        opsChunks ops ++ finChunk c := by
      simp [WorkerServerResponse.new]
    rw [end_of_pending (runOps_resolved ops _), runOps_chunks, hb]
  · intro n v hmem
    exact runOps_hasKey_of_mem hmem _

/-- C1 witness: writing "a" then "b" and finalizing with "c", after
setting a header, materializes body "abc" with the header present. -/
theorem transport_write_order_headers_present_witness :
    chunkTruthy (some (Chunk.str "c")) = true ∧
    ((runOps WorkerServerResponse.new
        [.setHeader "X-Request-Id" "7", .write (.str "a"), .write (.str "b")]).end
        (some (.str "c"))).resolved =
      some { status := 200, headers := [("x-request-id", "7")], body := utf8Bytes "abc" } ∧
    hasKey (runOps WorkerServerResponse.new
        [.setHeader "X-Request-Id" "7", .write (.str "a"), .write (.str "b")]).headers
      (jsToLower "X-Request-Id") = true := by
  refine ⟨by decide, ?_, ?_⟩
  · rw [(transport_write_order_headers_present
      [.setHeader "X-Request-Id" "7", .write (.str "a"), .write (.str "b")]
      (some (.str "c"))).1]
    decide
  · exact (transport_write_order_headers_present
      [.setHeader "X-Request-Id" "7", .write (.str "a"), .write (.str "b")]
      (some (.str "c"))).2 "X-Request-Id" "7" (by decide)

/-- C2: only the first end call resolves the completion promise; it
resolves with the status, headers and buffered body at that moment, and
a second end call leaves the resolved value unchanged. -/
theorem transport_end_first_call_wins (s : WorkerServerResponse)
    (h : s.resolved = none) (c c' : Option Chunk) :
    (s.end c).resolved =
      some { status := s.statusCode, headers := s.headers,
             body := (s.chunks ++ finChunk c).flatten } ∧
    ((s.end c).end c').resolved = (s.end c).resolved := by
  have h1 := end_of_pending h c
  exact ⟨h1, by rw [end_of_resolved h1 c', h1]⟩

/-- C2 witness at a concrete pending state: the first end resolves with
the snapshot, the second changes nothing. -/
theorem transport_end_first_call_wins_witness :
    ({ statusCode := 202, headers := [("x-a", "1")], chunks := [utf8Bytes "hi"] }
        : WorkerServerResponse).resolved = none ∧
    (({ statusCode := 202, headers := [("x-a", "1")], chunks := [utf8Bytes "hi"] }
        : WorkerServerResponse).end (some (.str "!"))).resolved =
      some { status := 202, headers := [("x-a", "1")], body := utf8Bytes "hi!" } ∧
    ((({ statusCode := 202, headers := [("x-a", "1")], chunks := [utf8Bytes "hi"] }
        : WorkerServerResponse).end (some (.str "!"))).end (some (.str "late"))).resolved =
      (({ statusCode := 202, headers := [("x-a", "1")], chunks := [utf8Bytes "hi"] }
        : WorkerServerResponse).end (some (.str "!"))).resolved := by
  refine ⟨rfl, ?_, ?_⟩
  · rw [(transport_end_first_call_wins
      { statusCode := 202, headers := [("x-a", "1")], chunks := [utf8Bytes "hi"] }
      rfl (some (.str "!")) (some (.str "late"))).1]
    decide
  · exact (transport_end_first_call_wins
      { statusCode := 202, headers := [("x-a", "1")], chunks := [utf8Bytes "hi"] }
      rfl (some (.str "!")) (some (.str "late"))).2

/-- C3: when the library evaluates the query to a browser list, the
facade result echoes the query, reports count equal to the length of
browsers, and passes the library's list through in the library's order. -/
theorem executeQuery_result_shape (lib : BrowserslistLib) (input : BrowserslistQueryInput)
    (bs : List String)
    (h : lib input.query (input.options.bind (·.env)) (input.options.bind (·.path)) = .ok bs) :
    executeBrowserslistQuery lib input =
      .ok { browsers := bs, query := input.query, count := bs.length } ∧
    ∀ r, executeBrowserslistQuery lib input = .ok r →
      r.count = r.browsers.length ∧ r.query = input.query ∧ r.browsers = bs := by
  have he := execute_ok h
  refine ⟨he, ?_⟩
  intro r hr
  rw [he] at hr
  injection hr with hr
  subst hr
  exact ⟨rfl, rfl, rfl⟩

/-- C3 witness with a concrete two-browser library. -/
theorem executeQuery_result_shape_witness :
    okLib "last 2 versions" none none = .ok ["chrome 120", "firefox 121"] ∧
    executeBrowserslistQuery okLib { query := "last 2 versions" } =
      .ok { browsers := ["chrome 120", "firefox 121"], query := "last 2 versions",
            count := 2 } := by
  refine ⟨rfl, ?_⟩
  rw [(executeQuery_result_shape okLib { query := "last 2 versions" }
    ["chrome 120", "firefox 121"] rfl).1]
  rfl

/-- C4 counterexample: an unexpected internal failure thrown inside a
Koa route — here the library call failing for a non-query reason on a
valid POST /api/query request — reaches the HTTP boundary with status
400, not 500. -/
theorem koa_internal_failure_surfaced_400 :
    (koaApp internalFailLib constErrorCovLib ["defaults"] "doc" (.arr [])
      "POST" "/api/query" (.obj [("query", .str "last 2 versions")])).status = 400 ∧
    ¬ (koaApp internalFailLib constErrorCovLib ["defaults"] "doc" (.arr [])
      "POST" "/api/query" (.obj [("query", .str "last 2 versions")])).status = 500 := by
  constructor
  · rfl
  · decide

/-- C4 amended: every JSON error body has the shape {error: message};
the worker answers 404 on unmatched routes (see the router theorem) and
500 for failures escaping the router; but the Koa error middleware
surfaces every handler-thrown failure — unexpected internal ones
included — with status 400. -/
theorem error_status_mapping (m : String) (ctx : WorkerCtx) (req : WRequest) :
    workerFetch ctx req (some m) =
      { status := 500, headers := corsHeaders ++ [("Content-Type", "application/json")],
        body := .json (.obj [("error", .str m)]) } ∧
    (koaErrorBoundary (.error m)).status = 400 ∧
    (koaErrorBoundary (.error m)).body =
      .json (.obj [("error", .str (if m = "" then "Internal server error" else m))]) :=
  ⟨rfl, rfl, rfl⟩

/-- C5: when the query facade fails, the tool handlers return a
normally-completed result tagged isError: true carrying a human-readable
message; the handlers are total functions into ToolResult, so the call
never faults at the transport level. -/
theorem tools_facade_failure_tagged (lib : BrowserslistLib) (cov : CoverageLib)
    (input : BrowserslistQueryInput) (browsers : List String) (m m' : String)
    (hq : lib input.query (input.options.bind (·.env)) (input.options.bind (·.path)) = .error m)
    (hc : cov (browsers.map .str) = .error m') :
    queryBrowsersTool lib input =
      { content := [.plain ("Error: Failed to execute browserslist query: " ++ m)],
        isError := true } ∧
    (queryBrowsersTool lib input).isError = true ∧
    getCoverageTool cov browsers =
      { content := [.plain ("Error: Failed to get coverage: " ++ m')], isError := true } ∧
    (getCoverageTool cov browsers).isError = true := by
  have h1 : queryBrowsersTool lib input =
      { content := [.plain ("Error: Failed to execute browserslist query: " ++ m)],
        isError := true } := by
    unfold queryBrowsersTool
    rw [execute_error hq]
    rfl
  have h2 : getCoverageTool cov browsers =
      { content := [.plain ("Error: Failed to get coverage: " ++ m')], isError := true } := by
    unfold getCoverageTool
    rw [coverage_error hc]
    rfl
  exact ⟨h1, by rw [h1], h2, by rw [h2]⟩

/-- C5 witness: concrete failing libraries produce isError results. -/
theorem tools_facade_failure_tagged_witness :
    constErrorLib "bogus" none none = .error "Unknown browser query" ∧
    constErrorCovLib [Json.str "x 1"] = .error "Unknown version in browsers" ∧
    queryBrowsersTool constErrorLib { query := "bogus" } =
      { content := [.plain "Error: Failed to execute browserslist query: Unknown browser query"],
        isError := true } ∧
    (getCoverageTool constErrorCovLib ["x 1"]).isError = true := by
  refine ⟨rfl, rfl, ?_, ?_⟩
  · rw [(tools_facade_failure_tagged constErrorLib constErrorCovLib
      { query := "bogus" } ["x 1"] _ _ rfl rfl).1]
    rfl
  · exact (tools_facade_failure_tagged constErrorLib constErrorCovLib
      { query := "bogus" } ["x 1"] _ _ rfl rfl).2.2.2

/-- C6: every (method, path) combination the router does not match
yields exactly the uniform payload
{error: "Endpoint not found: <method> <path>"} with status 404. -/
theorem router_unmatched_404 (ctx : WorkerCtx) (req : WRequest)
    (h : ¬ workerRouteMatched req.method req.pathname) :
    handleRequest ctx req =
      errorResponse ("Endpoint not found: " ++ req.method ++ " " ++ req.pathname) 404 ∧
    (handleRequest ctx req).status = 404 ∧
    (handleRequest ctx req).body =
      .json (.obj [("error",
        .str ("Endpoint not found: " ++ req.method ++ " " ++ req.pathname))]) := by
  simp only [workerRouteMatched, not_or] at h
  obtain ⟨h1, h2, h3, h4, h5, h6, h7, h8, h9, h10⟩ := h
  have hmain : handleRequest ctx req =
      errorResponse ("Endpoint not found: " ++ req.method ++ " " ++ req.pathname) 404 := by
    unfold handleRequest
    rw [if_neg h1, if_neg h2, if_neg (fun hx => hx.elim h3 h4), if_neg h5,
      if_neg h6, if_neg h7, if_neg h8, if_neg h9, if_neg h10]
  exact ⟨hmain, by rw [hmain]; rfl, by rw [hmain]; rfl⟩

/-- C6 witness: GET /unknown-path answers 404 with the literal method
and path echoed. -/
theorem router_unmatched_404_witness :
    ¬ workerRouteMatched "GET" "/unknown-path" ∧
    handleRequest sampleCtx ⟨"GET", "/unknown-path", .error "no body"⟩ =
      errorResponse "Endpoint not found: GET /unknown-path" 404 := by
  refine ⟨by unfold workerRouteMatched; decide, ?_⟩
  exact (router_unmatched_404 sampleCtx ⟨"GET", "/unknown-path", .error "no body"⟩
    (by unfold workerRouteMatched; decide)).1

/-- C7 counterexample: at a concrete rejected query, the caller-visible
failure message is not the evaluator's message passed through verbatim —
the facade prefixes it. -/
theorem executeQuery_error_not_verbatim :
    ¬ executeBrowserslistQuery constErrorLib { query := "invalid query syntax 123456" } =
        .error "Unknown browser query" ∧
    executeBrowserslistQuery constErrorLib { query := "invalid query syntax 123456" } =
      .error "Failed to execute browserslist query: Unknown browser query" := by
  constructor
  · intro hcontra
    have h2 : executeBrowserslistQuery constErrorLib { query := "invalid query syntax 123456" } =
        .error "Failed to execute browserslist query: Unknown browser query" := rfl
    rw [h2] at hcontra
    injection hcontra with hs
    exact absurd hs (by decide)
  · rfl

/-- C7 amended: a query the evaluator rejects fails with a recoverable,
caller-visible error whose message is the evaluator's message prefixed
with `Failed to execute browserslist query: `; never fatal (the facade
is a total function into Except). -/
theorem executeQuery_error_propagated (lib : BrowserslistLib) (input : BrowserslistQueryInput)
    (m : String)
    (h : lib input.query (input.options.bind (·.env)) (input.options.bind (·.path)) = .error m) :
    executeBrowserslistQuery lib input =
      .error ("Failed to execute browserslist query: " ++ m) :=
  execute_error h

/-- C7 amended witness at a concrete rejecting library. -/
theorem executeQuery_error_propagated_witness :
    constErrorLib "invalid query syntax 123456" none none = .error "Unknown browser query" ∧
    executeBrowserslistQuery constErrorLib { query := "invalid query syntax 123456" } =
      .error "Failed to execute browserslist query: Unknown browser query" :=
  ⟨rfl, executeQuery_error_propagated constErrorLib
    { query := "invalid query syntax 123456" } "Unknown browser query" rfl⟩

/-- C8: with the library convention coverage([]) = 0 (stated by the
spec), the facade returns exactly {coverage: 0} on the empty list; and
whenever the library's coverage computation fails, the facade fails with
a coverage error instead of returning a value. -/
theorem getCoverage_empty_zero_and_failure (lib : CoverageLib) (hempty : lib [] = .ok 0) :
    getBrowserslistCoverage lib [] = .ok { coverage := 0 } ∧
    ∀ bs m, lib bs = .error m →
      getBrowserslistCoverage lib bs = .error ("Failed to get coverage: " ++ m) :=
  ⟨coverage_ok hempty, fun _ _ h => coverage_error h⟩

/-- C8 witness at a concrete coverage library. -/
theorem getCoverage_empty_zero_and_failure_witness :
    sampleCovLib [] = .ok 0 ∧
    getBrowserslistCoverage sampleCovLib [] = .ok { coverage := 0 } ∧
    getBrowserslistCoverage sampleCovLib [Json.str "nonsense 99"] =
      .error "Failed to get coverage: Unknown browser" := by
  refine ⟨rfl, ?_, ?_⟩
  · exact (getCoverage_empty_zero_and_failure sampleCovLib rfl).1
  · exact (getCoverage_empty_zero_and_failure sampleCovLib rfl).2
      [Json.str "nonsense 99"] "Unknown browser" rfl

/-- C9: every response out of the worker fetch entry point — success,
validation error, routing 404, internal 500, documentation, and MCP
responses alike — carries the header Access-Control-Allow-Origin: *. -/
theorem worker_responses_carry_cors (ctx : WorkerCtx) (req : WRequest) (crash : Option String) :
    getHeaderCI (workerFetch ctx req crash).headers "Access-Control-Allow-Origin" = some "*" := by
  cases crash with
  | some m => rfl
  | none =>
    show getHeaderCI (handleRequest ctx req).headers _ = _
    unfold handleRequest
    split_ifs
    · rfl
    · exact handleMCPRequest_cors ctx.mcp req
    · rfl
    · rfl
    · exact handleQueryBrowsers_cors ctx.lib req
    · rfl
    · exact handleGetCoverage_cors ctx.covLib req
    · rfl
    · rfl
    · rfl

/-- C10: the "/" (or "") and "/health" routes are matched by path alone,
so every non-OPTIONS method receives the corresponding success response
rather than a 404. -/
theorem root_health_match_any_method (ctx : WorkerCtx) (method : String)
    (body : Except String Json) (h : ¬ method = "OPTIONS") :
    handleRequest ctx ⟨method, "/", body⟩ = handleRoot ∧
    handleRequest ctx ⟨method, "", body⟩ = handleRoot ∧
    handleRequest ctx ⟨method, "/health", body⟩ = handleHealth ctx.now ∧
    handleRoot.status = 200 ∧ (handleHealth ctx.now).status = 200 := by
  refine ⟨?_, ?_, ?_, rfl, rfl⟩ <;>
    simp [handleRequest, h]

/-- C10 witness: POST and DELETE on "/" and "/health" get the success
responses. -/
theorem root_health_match_any_method_witness :
    ¬ "POST" = "OPTIONS" ∧ ¬ "DELETE" = "OPTIONS" ∧
    handleRequest sampleCtx ⟨"POST", "/", .error "no body"⟩ = handleRoot ∧
    handleRequest sampleCtx ⟨"POST", "/health", .error "no body"⟩ =
      handleHealth sampleCtx.now ∧
    handleRequest sampleCtx ⟨"DELETE", "", .error "no body"⟩ = handleRoot := by
  refine ⟨by decide, by decide, ?_, ?_, ?_⟩
  · exact (root_health_match_any_method sampleCtx "POST" (.error "no body") (by decide)).1
  · exact (root_health_match_any_method sampleCtx "POST" (.error "no body") (by decide)).2.2.1
  · exact (root_health_match_any_method sampleCtx "DELETE" (.error "no body") (by decide)).2.1

end BrowserslistMCP
